import Mathlib

/-!
Verification of the Amap-Weather `get_weather` function (src/main.py).

The function is embedded shallowly: the city-code table (built by
`_load_city_codes` from the CSV file) is passed as an ordered association
list with the Python-dict iteration order, and the single outbound HTTP
request (`_query_weather_api`) is passed as an oracle from the request
parameters (adcode, extensions, api key) to an outcome — a parsed JSON
response, a timeout, a request exception, or any other exception.
Weather payload entries are an opaque type parameter `α`.
-/

/-- The administrative suffix character set of `rstrip('市区县')` in main.py. -/
def isAdminSuffix (c : Char) : Bool := c == '市' || c == '区' || c == '县'

/-- Python `s.rstrip('市区县')`: remove all trailing characters belonging to
the admin-suffix set. -/
def rstripAdmin (s : String) : String :=
  String.mk ((s.toList.reverse.dropWhile isAdminSuffix).reverse)

/-- Python `city_name[:2]`: the first two characters (code points) of the
query, or the whole string when it is shorter. -/
def firstTwo (s : String) : List Char := s.toList.take 2

/-- The parsed JSON body returned by the weather endpoint.  `lives` and
`forecasts` are `Option` because main.py reads them with
`result.get("lives", [])` — a missing field defaults to the empty list. -/
structure ApiResponse (α : Type) where
  status : Option String
  info : Option String
  infocode : Option String
  lives : Option (List α)
  forecasts : Option (List α)

/-- Outcome of the single `requests.get` call in `_query_weather_api`:
a parsed JSON body, a `requests.exceptions.Timeout`, any other
`requests.exceptions.RequestException` (including the `HTTPError` raised
by `raise_for_status` on a non-2xx status), or any other exception. -/
inductive ApiOutcome (α : Type) where
  | ok (r : ApiResponse α)
  | timeout
  | requestError (msg : String)
  | otherError (msg : String)

/-- The Python `city_name` argument, which is dynamically typed: either an
actual string or any non-string value. -/
inductive PyArg where
  | str (s : String)
  | notStr
deriving DecidableEq

/-- The result dictionary of `get_weather`, with one `Option` field per key
that some branch of main.py puts into the returned dict. -/
structure WeatherResult (α : Type) where
  success : Bool
  type : Option String
  city_name : Option String
  data : Option α
  error : Option String
  error_code : Option String
  api_infocode : Option (Option String)
deriving DecidableEq

/-- A failure dict `{"success": False, "error": msg, "error_code": code}`. -/
def mkFailure (α : Type) (msg code : String) : WeatherResult α :=
  ⟨false, none, none, none, some msg, some code, none⟩

/-- A success dict `{"success": True, "type": ty, "city_name": name, "data": d}`. -/
def mkSuccess (α : Type) (ty name : String) (d : α) : WeatherResult α :=
  ⟨true, some ty, some name, some d, none, none, none⟩

/-- City resolution, main.py lines 189-200: exact dict lookup first, then the
fuzzy loop comparing suffix-stripped forms, first match wins.  The adcode is
returned as a string where `""` stands for the falsy values (`None` or an
empty code), exactly the distinction `if not adcode` observes. -/
def resolve_city (city_codes : List (String × String)) (city_name : String) :
    String × String :=
  let adcode := (List.lookup city_name city_codes).getD ""
  if adcode ≠ "" then (adcode, city_name)
  else
    let cleaned := rstripAdmin city_name
    match city_codes.find? (fun p => rstripAdmin p.1 == cleaned) with
    | some (n, c) => (c, n)
    | none => ("", city_name)

/-- Python `sub in s` on strings: contiguous-substring containment, here over
character lists. -/
def listContainsSub (hay pat : List Char) : Bool :=
  (List.range (hay.length + 1)).any (fun i => (hay.drop i).take pat.length == pat)

/-- The suggestion comprehension of main.py line 204:
`[name for name in city_codes.keys() if city_name[:2] in name]`. -/
def similar_cities (city_codes : List (String × String)) (city_name : String) :
    List String :=
  (city_codes.map Prod.fst).filter (fun name => listContainsSub name.toList (firstTwo city_name))

/-- The CITY_NOT_FOUND message of main.py lines 204-209, embedding at most the
first five suggestions. -/
def cityNotFoundError (city_name : String) (sims : List String) : String :=
  "未找到城市 '" ++ city_name ++ "'" ++
    (if sims.isEmpty then ""
     else "，您是否想查询：" ++ String.intercalate ", " (sims.take 5))

/-- The body of `get_weather` (main.py lines 151-277).  `amap_api_key` is the
value of `os.environ.get('AMAP_API_KEY')` (`none` when unset), `city_codes`
the table `_load_city_codes` produced (`[]` when loading failed or the file
was empty), and `api` the request oracle applied to (adcode, extensions,
api key). -/
def get_weather (α : Type) (amap_api_key : Option String) (city_name : PyArg)
    (extensions : String) (city_codes : List (String × String))
    (api : String → String → String → ApiOutcome α) : WeatherResult α :=
  let api_key := amap_api_key.getD ""
  if api_key = "" then
    mkFailure α "未配置 AMAP_API_KEY，请在平台上配置高德地图 API 密钥" "MISSING_API_KEY"
  else
    match city_name with
    | PyArg.notStr => mkFailure α "city_name 参数必须是非空字符串" "INVALID_CITY_NAME"
    | PyArg.str cn =>
      if cn = "" then
        mkFailure α "city_name 参数必须是非空字符串" "INVALID_CITY_NAME"
      else if ¬ (extensions = "base" ∨ extensions = "all") then
        mkFailure α "extensions 参数必须是 'base' 或 'all'" "INVALID_EXTENSIONS"
      else if city_codes = [] then
        mkFailure α "无法加载城市编码数据" "CITY_DATA_ERROR"
      else
        let rc := resolve_city city_codes cn
        if rc.1 = "" then
          mkFailure α (cityNotFoundError cn (similar_cities city_codes cn)) "CITY_NOT_FOUND"
        else
          match api rc.1 extensions api_key with
          | ApiOutcome.timeout => mkFailure α "请求超时，请稍后重试" "TIMEOUT"
          | ApiOutcome.requestError m => mkFailure α ("网络请求失败: " ++ m) "NETWORK_ERROR"
          | ApiOutcome.otherError m => mkFailure α ("未知错误: " ++ m) "UNEXPECTED_ERROR"
          | ApiOutcome.ok r =>
            if r.status ≠ some "1" then
              ⟨false, none, none, none,
               some ("高德地图 API 返回错误: " ++ r.info.getD "未知错误"),
               some "API_ERROR", some r.infocode⟩
            else if extensions = "base" then
              match r.lives.getD [] with
              | [] => mkFailure α "未获取到天气数据" "NO_DATA"
              | d :: _ => mkSuccess α "live" rc.2 d
            else
              match r.forecasts.getD [] with
              | [] => mkFailure α "未获取到天气预报数据" "NO_DATA"
              | d :: _ => mkSuccess α "forecast" rc.2 d

/-- A concrete request oracle for concrete evaluations; it always times out. -/
def timeoutApi : String → String → String → ApiOutcome String :=
  fun _ _ _ => ApiOutcome.timeout

/-- C4: with the AMAP_API_KEY environment variable unset, `get_weather`
returns the MISSING_API_KEY failure whatever the other arguments are; the
result is a constant not depending on the city table or on the request
oracle, so no table load, no city resolution and no network call can
influence it. -/
theorem get_weather_missing_api_key (α : Type) (city_name : PyArg)
    (extensions : String) (city_codes : List (String × String))
    (api : String → String → String → ApiOutcome α) :
    get_weather α none city_name extensions city_codes api =
      mkFailure α "未配置 AMAP_API_KEY，请在平台上配置高德地图 API 密钥" "MISSING_API_KEY" := by
  rfl

/-- C10: an AMAP_API_KEY set to the empty string is treated exactly like an
absent one — same result as with the variable unset, namely the
MISSING_API_KEY failure — and the result does not depend on the request
oracle, so the empty key is never passed to a network call. -/
theorem get_weather_empty_api_key (α : Type) (city_name : PyArg)
    (extensions : String) (city_codes : List (String × String))
    (api api' : String → String → String → ApiOutcome α) :
    get_weather α (some "") city_name extensions city_codes api =
      get_weather α none city_name extensions city_codes api' ∧
    (get_weather α (some "") city_name extensions city_codes api).error_code =
      some "MISSING_API_KEY" :=
  ⟨rfl, rfl⟩

/-- C5 counterexample: with the API key absent and city_name the empty
string, `get_weather` returns MISSING_API_KEY, not INVALID_CITY_NAME — the
credential check runs first, so "always returns INVALID_CITY_NAME" fails. -/
theorem get_weather_invalid_city_name_cex :
    (get_weather String none (PyArg.str "") "base" [] timeoutApi).error_code =
      some "MISSING_API_KEY" ∧
    ¬ (get_weather String none (PyArg.str "") "base" [] timeoutApi).error_code =
      some "INVALID_CITY_NAME" := by
  exact ⟨rfl, by decide⟩

/-- C5 (amended): given a present (non-empty) API key, an empty-string or
non-string city_name always yields the INVALID_CITY_NAME failure; the result
is a constant not depending on the city table or the request oracle, so the
table is never consulted in that call. -/
theorem get_weather_invalid_city_name (α : Type) (k : String) (hk : k ≠ "")
    (city_name : PyArg)
    (hcn : city_name = PyArg.str "" ∨ city_name = PyArg.notStr)
    (extensions : String) (city_codes : List (String × String))
    (api : String → String → String → ApiOutcome α) :
    get_weather α (some k) city_name extensions city_codes api =
      mkFailure α "city_name 参数必须是非空字符串" "INVALID_CITY_NAME" := by
  rcases hcn with h | h <;> subst h <;> simp [get_weather, hk]

/-- Witness for the amended C5 at a concrete input. -/
theorem get_weather_invalid_city_name_witness :
    get_weather String (some "key") (PyArg.str "") "base" [] timeoutApi =
      mkFailure String "city_name 参数必须是非空字符串" "INVALID_CITY_NAME" :=
  get_weather_invalid_city_name String "key" (by decide) (PyArg.str "")
    (Or.inl rfl) "base" [] timeoutApi

/-- A concrete city table for concrete evaluations.  "北京" and "北京市" share
the stripped form "北京", so fuzzy ties are observable on it. -/
def exTable : List (String × String) :=
  [("上海市", "310000"), ("北京", "888888"), ("北京市", "110000")]

/-- A concrete oracle answering every request with a status-"1" body whose
lives list is ["sunny"]. -/
def okBaseApi : String → String → String → ApiOutcome String :=
  fun _ _ _ =>
    ApiOutcome.ok ⟨some "1", some "OK", some "10000", some ["sunny"], none⟩

/-- A concrete oracle answering every request with a status-"1" body whose
forecasts list is ["rainy"]. -/
def okAllApi : String → String → String → ApiOutcome String :=
  fun _ _ _ =>
    ApiOutcome.ok ⟨some "1", some "OK", some "10000", none, some ["rainy"]⟩

/-- C3: a city name present verbatim as a table key (with, per the table
invariant, a non-empty code) resolves to that entry's code with the query
itself as the matched name — the fuzzy suffix-stripping step is never
consulted, whatever the other entries look like — and a successful base-mode
call reports the query itself as city_name. -/
theorem get_weather_exact_match (α : Type) (k cn c : String)
    (city_codes : List (String × String)) (r : ApiResponse α) (d : α)
    (ds : List α) (api : String → String → String → ApiOutcome α)
    (hk : k ≠ "") (hcn : cn ≠ "")
    (hlook : List.lookup cn city_codes = some c) (hc : c ≠ "")
    (hapi : api c "base" k = ApiOutcome.ok r)
    (hst : r.status = some "1") (hlives : r.lives = some (d :: ds)) :
    resolve_city city_codes cn = (c, cn) ∧
    get_weather α (some k) (PyArg.str cn) "base" city_codes api =
      mkSuccess α "live" cn d := by
  have hres : resolve_city city_codes cn = (c, cn) := by
    simp [resolve_city, hlook, hc]
  have htne : city_codes ≠ [] := by
    rintro rfl
    simp [List.lookup] at hlook
  refine ⟨hres, ?_⟩
  simp [get_weather, hk, hcn, htne, hres, hc, hapi, hst, hlives]

/-- Witness for C3 at a concrete input; the table also holds "北京", whose
stripped form ties with the query "北京市", yet the verbatim entry wins. -/
theorem get_weather_exact_match_witness :
    resolve_city exTable "北京市" = ("110000", "北京市") ∧
    get_weather String (some "key") (PyArg.str "北京市") "base" exTable okBaseApi =
      mkSuccess String "live" "北京市" "sunny" :=
  get_weather_exact_match String "key" "北京市" "110000" exTable
    ⟨some "1", some "OK", some "10000", some ["sunny"], none⟩ "sunny" [] okBaseApi
    (by decide) (by decide) (by decide) (by decide) rfl rfl rfl

/-- C1: a city name absent from the table whose suffix-stripped form equals
the stripped form of some key resolves — via the fuzzy loop, first matching
entry in table order winning — to that entry's code, and a successful
base-mode call reports that entry's original (unstripped) name as
city_name. -/
theorem get_weather_fuzzy_match (α : Type) (k cn n c : String)
    (city_codes : List (String × String)) (r : ApiResponse α) (d : α)
    (ds : List α) (api : String → String → String → ApiOutcome α)
    (hk : k ≠ "") (hcn : cn ≠ "")
    (hlook : List.lookup cn city_codes = none)
    (hfind : city_codes.find? (fun p => rstripAdmin p.1 == rstripAdmin cn) =
      some (n, c))
    (hc : c ≠ "")
    (hapi : api c "base" k = ApiOutcome.ok r)
    (hst : r.status = some "1") (hlives : r.lives = some (d :: ds)) :
    resolve_city city_codes cn = (c, n) ∧
    get_weather α (some k) (PyArg.str cn) "base" city_codes api =
      mkSuccess α "live" n d := by
  have hres : resolve_city city_codes cn = (c, n) := by
    simp [resolve_city, hlook, hfind]
  have htne : city_codes ≠ [] := by
    rintro rfl
    simp [List.find?] at hfind
  refine ⟨hres, ?_⟩
  simp [get_weather, hk, hcn, htne, hres, hc, hapi, hst, hlives]

/-- Witness for C1 at a concrete input: "北京县" is no key of the table and
its stripped form "北京" ties between the keys "北京" and "北京市"; the first
of them in table order, "北京", wins and is reported as city_name. -/
theorem get_weather_fuzzy_match_witness :
    resolve_city exTable "北京县" = ("888888", "北京") ∧
    get_weather String (some "key") (PyArg.str "北京县") "base" exTable okBaseApi =
      mkSuccess String "live" "北京" "sunny" :=
  get_weather_fuzzy_match String "key" "北京县" "北京" "888888" exTable
    ⟨some "1", some "OK", some "10000", some ["sunny"], none⟩ "sunny" [] okBaseApi
    (by decide) (by decide) (by decide) (by decide) (by decide) rfl rfl rfl

/-- C2: with a present key, valid mode and non-empty table, a city name that
matches no entry exactly nor after suffix-stripping yields the
CITY_NOT_FOUND failure whose message embeds the suggestion list; the
suggestions kept are at most 5, each is a table key containing the query's
first (up to) two characters as a substring, and they keep table order
(a sublist of the key list). -/
theorem get_weather_city_not_found (α : Type) (k cn ext : String)
    (city_codes : List (String × String))
    (api : String → String → String → ApiOutcome α)
    (hk : k ≠ "") (hcn : cn ≠ "") (hext : ext = "base" ∨ ext = "all")
    (htne : city_codes ≠ [])
    (hlook : List.lookup cn city_codes = none)
    (hfind : city_codes.find? (fun p => rstripAdmin p.1 == rstripAdmin cn) =
      none) :
    get_weather α (some k) (PyArg.str cn) ext city_codes api =
      mkFailure α (cityNotFoundError cn (similar_cities city_codes cn))
        "CITY_NOT_FOUND" ∧
    ((similar_cities city_codes cn).take 5).length ≤ 5 ∧
    (∀ s ∈ (similar_cities city_codes cn).take 5,
      s ∈ city_codes.map Prod.fst ∧
      listContainsSub s.toList (firstTwo cn) = true) ∧
    List.Sublist ((similar_cities city_codes cn).take 5)
      (city_codes.map Prod.fst) := by
  have hres : resolve_city city_codes cn = ("", cn) := by
    simp [resolve_city, hlook, hfind]
  refine ⟨?_, ?_, ?_, ?_⟩
  · rcases hext with h | h <;> subst h <;>
      simp [get_weather, hk, hcn, htne, hres]
  · rw [List.length_take]
    exact min_le_left _ _
  · intro s hs
    have hs' : s ∈ similar_cities city_codes cn := List.take_subset _ _ hs
    have := List.mem_filter.mp hs'
    exact ⟨this.1, this.2⟩
  · exact (List.take_sublist _ _).trans (List.filter_sublist _)

/-- Witness for C2 at a concrete input: "上海浦东" matches nothing even
stripped, and the single key containing its first two characters "上海" is
suggested inside the message. -/
theorem get_weather_city_not_found_witness :
    get_weather String (some "key") (PyArg.str "上海浦东") "base" exTable
        timeoutApi =
      mkFailure String
        (cityNotFoundError "上海浦东" (similar_cities exTable "上海浦东"))
        "CITY_NOT_FOUND" ∧
    ((similar_cities exTable "上海浦东").take 5).length ≤ 5 ∧
    (∀ s ∈ (similar_cities exTable "上海浦东").take 5,
      s ∈ exTable.map Prod.fst ∧
      listContainsSub s.toList (firstTwo "上海浦东") = true) ∧
    List.Sublist ((similar_cities exTable "上海浦东").take 5)
      (exTable.map Prod.fst) :=
  get_weather_city_not_found String "key" "上海浦东" "base" exTable timeoutApi
    (by decide) (by decide) (Or.inl rfl) (by decide) (by decide) (by decide)

/-- C6: a call that reaches the weather API and receives a JSON body whose
status field is not "1" returns the API_ERROR failure whose message embeds
the body's info field (default text when info is missing), together with
the body's infocode. -/
theorem get_weather_api_error (α : Type) (k cn ext : String)
    (city_codes : List (String × String)) (r : ApiResponse α)
    (api : String → String → String → ApiOutcome α)
    (hk : k ≠ "") (hcn : cn ≠ "") (hext : ext = "base" ∨ ext = "all")
    (htne : city_codes ≠ [])
    (hrc : (resolve_city city_codes cn).1 ≠ "")
    (hapi : api (resolve_city city_codes cn).1 ext k = ApiOutcome.ok r)
    (hst : r.status ≠ some "1") :
    get_weather α (some k) (PyArg.str cn) ext city_codes api =
      ⟨false, none, none, none,
       some ("高德地图 API 返回错误: " ++ r.info.getD "未知错误"),
       some "API_ERROR", some r.infocode⟩ := by
  rcases hext with h | h <;> subst h <;>
    simp [get_weather, hk, hcn, htne, hrc, hapi, hst]

/-- A concrete oracle answering every request with a status-"0" body carrying
info "INVALID_USER_KEY". -/
def errApi : String → String → String → ApiOutcome String :=
  fun _ _ _ =>
    ApiOutcome.ok ⟨some "0", some "INVALID_USER_KEY", some "10001", none, none⟩

/-- Witness for C6 at a concrete input. -/
theorem get_weather_api_error_witness :
    get_weather String (some "key") (PyArg.str "北京市") "base" exTable errApi =
      ⟨false, none, none, none,
       some ("高德地图 API 返回错误: " ++ "INVALID_USER_KEY"),
       some "API_ERROR", some (some "10001")⟩ :=
  get_weather_api_error String "key" "北京市" "base" exTable
    ⟨some "0", some "INVALID_USER_KEY", some "10001", none, none⟩ errApi
    (by decide) (by decide) (Or.inl rfl) (by decide) (by decide) rfl
    (by decide)

/-- C8: a timed-out request yields error_code exactly "TIMEOUT", while any
other request failure — including the HTTP error raised for a non-2xx
status — yields the distinct error_code "NETWORK_ERROR". -/
theorem get_weather_timeout (α : Type) (k cn ext m : String)
    (city_codes : List (String × String))
    (api api' : String → String → String → ApiOutcome α)
    (hk : k ≠ "") (hcn : cn ≠ "") (hext : ext = "base" ∨ ext = "all")
    (htne : city_codes ≠ [])
    (hrc : (resolve_city city_codes cn).1 ≠ "")
    (hapi : api (resolve_city city_codes cn).1 ext k = ApiOutcome.timeout)
    (hapi' : api' (resolve_city city_codes cn).1 ext k =
      ApiOutcome.requestError m) :
    get_weather α (some k) (PyArg.str cn) ext city_codes api =
      mkFailure α "请求超时，请稍后重试" "TIMEOUT" ∧
    get_weather α (some k) (PyArg.str cn) ext city_codes api' =
      mkFailure α ("网络请求失败: " ++ m) "NETWORK_ERROR" ∧
    ("TIMEOUT" : String) ≠ "NETWORK_ERROR" := by
  refine ⟨?_, ?_, by decide⟩ <;>
    rcases hext with h | h <;> subst h <;>
      simp [get_weather, hk, hcn, htne, hrc, hapi, hapi']

/-- A concrete oracle whose every request fails with a request exception. -/
def netErrApi : String → String → String → ApiOutcome String :=
  fun _ _ _ => ApiOutcome.requestError "boom"

/-- Witness for C8 at a concrete input. -/
theorem get_weather_timeout_witness :
    get_weather String (some "key") (PyArg.str "北京市") "base" exTable
        timeoutApi =
      mkFailure String "请求超时，请稍后重试" "TIMEOUT" ∧
    get_weather String (some "key") (PyArg.str "北京市") "base" exTable
        netErrApi =
      mkFailure String ("网络请求失败: " ++ "boom") "NETWORK_ERROR" ∧
    ("TIMEOUT" : String) ≠ "NETWORK_ERROR" :=
  get_weather_timeout String "key" "北京市" "base" "boom" exTable
    timeoutApi netErrApi (by decide) (by decide) (Or.inl rfl) (by decide)
    (by decide) rfl rfl

/-- C7: on a status-"1" response, mode "base" succeeds exactly when the
lives list (missing defaulting to empty) is non-empty, returning its first
element tagged "live"; mode "all" likewise with the forecasts list tagged
"forecast"; an empty or missing list yields the NO_DATA failure. -/
theorem get_weather_data_classification (α : Type) (k cn ext : String)
    (city_codes : List (String × String)) (r : ApiResponse α)
    (api : String → String → String → ApiOutcome α)
    (hk : k ≠ "") (hcn : cn ≠ "") (htne : city_codes ≠ [])
    (hrc : (resolve_city city_codes cn).1 ≠ "")
    (hapi : api (resolve_city city_codes cn).1 ext k = ApiOutcome.ok r)
    (hst : r.status = some "1") :
    (ext = "base" →
      (r.lives.getD [] = [] →
        get_weather α (some k) (PyArg.str cn) ext city_codes api =
          mkFailure α "未获取到天气数据" "NO_DATA") ∧
      (∀ d ds, r.lives.getD [] = d :: ds →
        get_weather α (some k) (PyArg.str cn) ext city_codes api =
          mkSuccess α "live" (resolve_city city_codes cn).2 d)) ∧
    (ext = "all" →
      (r.forecasts.getD [] = [] →
        get_weather α (some k) (PyArg.str cn) ext city_codes api =
          mkFailure α "未获取到天气预报数据" "NO_DATA") ∧
      (∀ d ds, r.forecasts.getD [] = d :: ds →
        get_weather α (some k) (PyArg.str cn) ext city_codes api =
          mkSuccess α "forecast" (resolve_city city_codes cn).2 d)) := by
  constructor
  · rintro rfl
    refine ⟨fun hempty => ?_, fun d ds hcons => ?_⟩ <;>
      simp_all [get_weather, hk, hcn, htne, hrc, hapi, hst]
  · rintro rfl
    refine ⟨fun hempty => ?_, fun d ds hcons => ?_⟩ <;>
      simp_all [get_weather, hk, hcn, htne, hrc, hapi, hst]

/-- Witness for C7 at a concrete input, in mode "all" with a one-element
forecasts list. -/
theorem get_weather_data_classification_witness :
    get_weather String (some "key") (PyArg.str "北京市") "all" exTable
        okAllApi =
      mkSuccess String "forecast" (resolve_city exTable "北京市").2 "rainy" :=
  ((get_weather_data_classification String "key" "北京市" "all" exTable
      ⟨some "1", some "OK", some "10000", none, some ["rainy"]⟩ okAllApi
      (by decide) (by decide) (by decide) (by decide) rfl rfl).2
    rfl).2 "rainy" [] rfl

/-- Success-variant shape: success true with type, city_name and data
present, no error fields. -/
def isSuccessShape (α : Type) (w : WeatherResult α) : Prop :=
  w.success = true ∧ w.type.isSome = true ∧ w.city_name.isSome = true ∧
    w.data.isSome = true ∧ w.error = none ∧ w.error_code = none

/-- Failure-variant shape: success false with error and error_code present,
no success-only fields. -/
def isFailureShape (α : Type) (w : WeatherResult α) : Prop :=
  w.success = false ∧ w.error.isSome = true ∧ w.error_code.isSome = true ∧
    w.data = none ∧ w.type = none ∧ w.city_name = none

/-- C9: every call populates exactly one of the two result variants — either
the success shape (type, city_name, data present; no error fields) or the
failure shape (error, error_code present; no data, type or city_name) —
never a mixture. -/
theorem get_weather_variants (α : Type) (amap_api_key : Option String)
    (city_name : PyArg) (extensions : String)
    (city_codes : List (String × String))
    (api : String → String → String → ApiOutcome α) :
    isSuccessShape α
        (get_weather α amap_api_key city_name extensions city_codes api) ∨
    isFailureShape α
        (get_weather α amap_api_key city_name extensions city_codes api) := by
  simp only [get_weather]
  repeat' split
  all_goals simp [mkFailure, mkSuccess, isSuccessShape, isFailureShape]

example : rstripAdmin "北京市" = "北京" := by decide
example : rstripAdmin "市区县" = "" := by decide
example : resolve_city [("北京市", "110000"), ("上海市", "310000")] "上海" =
    ("310000", "上海市") := by decide
example : resolve_city [("北京市", "110000"), ("上海市", "310000")] "北京市" =
    ("110000", "北京市") := by decide
example : similar_cities [("北京市", "110000"), ("上海市", "310000")] "上海" =
    ["上海市"] := by decide
